import Mathlib

/-!
Verification of the audio-relay backend (`src/api.py`).

The file shallowly embeds the two Flask handlers of `api.py` — `/process-audio`
(`process_audio_file`, lines 123-314) and `/generate` (`generate_content_text`,
lines 328-391) — together with the helper `upload_to_gemini_file_api`
(lines 47-118) and the module-level URL constants (lines 31-42).

Modelling conventions:
* JSON values delivered by `response.json()` / `request.get_json()` are the
  inductive `Json` below; 2xx upstream bodies are taken as already-parsed JSON
  (`requests` body-decode failures on 2xx are outside the model).
* Python dict/list/str operations (`in`, `[...]`, `.get`, `.startswith`,
  truthiness, iteration, `str.join`) are embedded with their exception
  behaviour on every `Json` shape; a raised exception is `Except.error`.
* The outbound HTTP calls made by the handlers are oracles: an `HttpOutcome`
  per call site says whether `requests.post` timed out, failed with no
  response, or produced a response with a status and body.  The list of
  outbound calls actually attempted is returned as a trace.
* The single temporary file of `/process-audio` is one boolean (present on
  disk after the handler finishes or not); `os.remove` itself is taken to
  succeed.  The `finally` block runs — and so the file is removed — also
  when the handler is propagating an exception.
* Both generic `except Exception` handlers (lines 302-304 and 389-391) call
  `print(..., exc_info=True)`; `print` accepts no `exc_info` keyword, so the
  handler block itself raises `TypeError` before reaching its
  `return jsonify(...), 500`, and that `TypeError` propagates out of the
  handler.  The model renders these handlers as `.error PyExc.typeError`.
* Message strings rendered from exception objects (Python `str(e)`) are
  approximated; all literal message strings are copied from the source.
-/

set_option maxHeartbeats 1000000

/-- A JSON value (what `response.json()` or `request.get_json()` yields). -/
inductive Json where
  | null
  | bool (b : Bool)
  | num (n : Int)
  | str (s : String)
  | arr (xs : List Json)
  | obj (kvs : List (String × Json))

/-- First-match association-list lookup: Python `d[k]` / `d.get(k)` on the
object's key-value pairs. -/
def lookupKey : List (String × Json) → String → Option Json
  | [], _ => none
  | (k, v) :: rest, key => if k = key then some v else lookupKey rest key

/-- Whether an object's pair list holds a key (Python `k in d`). -/
def hasKeyL (kvs : List (String × Json)) (key : String) : Bool :=
  kvs.any (fun kv => kv.1 == key)

/-- Python truthiness of a JSON value (`if x:`). -/
def pyTruthy : Json → Bool
  | .null => false
  | .bool b => b
  | .num n => n != 0
  | .str s => s != ""
  | .arr xs => !xs.isEmpty
  | .obj kvs => !kvs.isEmpty

/-- The Python exceptions the embedded code can raise or catch. -/
inductive PyExc where
  | keyError (k : String)
  | indexError
  | typeError
  | attributeError
  | valueError (msg : String)
  /-- built-in `ConnectionError`, raised by the upload helper (line 114). -/
  | connectionError (msg : String)
  /-- `requests.exceptions.Timeout`. -/
  | timeoutExc
  /-- a `requests` `HTTPError` from `raise_for_status`, carrying its response. -/
  | httpError (status : Nat) (body : Json)
  /-- a `requests.exceptions.RequestException` with `e.response is None`. -/
  | connError
  | genericError (msg : String)

/-- Rendering of `str(e)` used when an exception is interpolated into a
message (approximate; no claim depends on these strings). -/
def excMsg : PyExc → String
  | .keyError k => k
  | .indexError => "list index out of range"
  | .typeError => "type error"
  | .attributeError => "attribute error"
  | .valueError m => m
  | .connectionError m => m
  | .timeoutExc => "timed out"
  | .httpError s _ => "HTTP error " ++ toString s
  | .connError => "connection error"
  | .genericError m => m

/-- Whether `pat` occurs as a substring of the character list (kernel of
Python `pat in s` on strings). -/
def listContainsSub (pat : List Char) : List Char → Bool
  | [] => pat.isEmpty
  | c :: rest => pat.isPrefixOf (c :: rest) || listContainsSub pat rest

/-- Whether `pat` occurs as a substring of `s` (Python `pat in s`). -/
def strContainsSub (s pat : String) : Bool :=
  listContainsSub pat.toList s.toList

/-- Python `s.startswith(pre)` on strings. -/
def strStartsWith (s pre : String) : Bool :=
  pre.toList.isPrefixOf s.toList

/-- Leading-whitespace removal on a character list. -/
def dropLeadingWs : List Char → List Char
  | [] => []
  | c :: rest => if c.isWhitespace then dropLeadingWs rest else c :: rest

/-- Python `s.strip()`: surrounding whitespace removed. -/
def pyStrip (s : String) : String :=
  String.mk ((dropLeadingWs (dropLeadingWs s.toList).reverse).reverse)

/-- Python `"\n".join(pieces)`. -/
def joinNl : List String → String
  | [] => ""
  | [s] => s
  | s :: rest => s ++ "\n" ++ joinNl rest

/-- Python `key in j` for a string `key`: key test on a dict, membership on a
list, substring test on a string, `TypeError` otherwise. -/
def pyContains (j : Json) (key : String) : Except PyExc Bool :=
  match j with
  | .obj kvs => .ok (hasKeyL kvs key)
  | .arr xs => .ok (xs.any (fun x => match x with | .str s => s == key | _ => false))
  | .str s => .ok (strContainsSub s key)
  | _ => .error .typeError

/-- Python `j[key]` for a string `key`: dict lookup (`KeyError` when absent),
`TypeError` on any other shape. -/
def pySubscriptStr (j : Json) (key : String) : Except PyExc Json :=
  match j with
  | .obj kvs =>
    match lookupKey kvs key with
    | some v => .ok v
    | none => .error (.keyError key)
  | _ => .error .typeError

/-- Python `j[i]` for a natural index: list indexing (`IndexError` out of
range), string indexing (a one-character string), `KeyError` on a dict whose
keys are strings, `TypeError` otherwise. -/
def pySubscriptNat (j : Json) (i : Nat) : Except PyExc Json :=
  match j with
  | .arr xs =>
    match xs.get? i with
    | some v => .ok v
    | none => .error .indexError
  | .str s =>
    match s.toList.get? i with
    | some c => .ok (.str (String.singleton c))
    | none => .error .indexError
  | .obj _ => .error (.keyError (toString i))
  | _ => .error .typeError

/-- Python `j.get(key, dflt)` (and `j.get(key)` with `dflt := Json.null`):
only dicts have `.get`, anything else raises `AttributeError`. -/
def pyDictGet (j : Json) (key : String) (dflt : Json) : Except PyExc Json :=
  match j with
  | .obj kvs => .ok ((lookupKey kvs key).getD dflt)
  | _ => .error .attributeError

/-- Python iteration `for x in j`: list elements, the characters of a string,
the keys of a dict; `TypeError` otherwise. -/
def pyIter (j : Json) : Except PyExc (List Json) :=
  match j with
  | .arr xs => .ok xs
  | .str s => .ok (s.toList.map (fun c => .str (String.singleton c)))
  | .obj kvs => .ok (kvs.map (fun kv => Json.str kv.1))
  | _ => .error .typeError

/-- Python `j.startswith(pre)`: strings only, `AttributeError` otherwise. -/
def pyStartsWith (j : Json) (pre : String) : Except PyExc Bool :=
  match j with
  | .str s => .ok (strStartsWith s pre)
  | _ => .error .attributeError

/-- Python f-string rendering of a JSON value (approximate for containers). -/
def pyStr : Json → String
  | .null => "None"
  | .bool true => "True"
  | .bool false => "False"
  | .num n => toString n
  | .str s => s
  | .arr _ => "[...]"
  | .obj _ => "dict"

/-- An argument of `str.join`: must be a string, else `TypeError`. -/
def joinArgStr : Json → Except PyExc String
  | .str s => .ok s
  | _ => .error .typeError

/-- Left-to-right effectful map: a list comprehension (or an argument scan of
`str.join`) that stops at the first exception. -/
def mapExcept (f : Json → Except PyExc α) : List Json → Except PyExc (List α)
  | [] => .ok []
  | x :: rest =>
    match f x with
    | .error e => .error e
    | .ok y =>
      match mapExcept f rest with
      | .error e => .error e
      | .ok ys => .ok (y :: ys)

/-- lines 31-36: API base URL and model name. -/
def FILE_API_URL_BASE : String := "https://generativelanguage.googleapis.com/v1beta"

def MODEL_NAME : String := "gemini-1.5-flash-latest"

/-- line 40: generation endpoint URL, built once with the configured key
rendered into the query string. -/
def GENERATE_CONTENT_URL (api_key : String) : String :=
  FILE_API_URL_BASE ++ "/models/" ++ MODEL_NAME ++ ":generateContent?key=" ++ api_key

/-- line 42: file-upload endpoint URL. -/
def FILE_UPLOAD_URL (api_key : String) : String :=
  FILE_API_URL_BASE ++ "/files?key=" ++ api_key

/-- line 355: the URL `/generate` actually posts to — it appends `?key=` to
`GENERATE_CONTENT_URL`, which already ends in `?key=` plus the key. -/
def generate_full_url (api_key : String) : String :=
  GENERATE_CONTENT_URL api_key ++ "?key=" ++ api_key

/-- Number of positions of `s` at which `pat` occurs as a substring. -/
def countSubstrOcc (s pat : String) : Nat :=
  ((List.range (s.length + 1)).filter
    (fun i => pat.toList.isPrefixOf (s.toList.drop i))).length

/-- Python `if not api_key:` on `os.environ.get("GEMINI_API_KEY")` (line 27):
true when the variable is unset or set to the empty string. -/
def apiKeyFalsy : Option String → Bool
  | none => true
  | some s => s == ""

/-- lines 83-104: parsing of a 2xx staging response body.  A nested
`file` object carrying `name` and `uri` is returned whole (the success log
line subscripts its `name` and `uri`, so a non-dict under `file` raises
`TypeError` there); a flat body whose `name` starts with `files/` is
repackaged with `uri` defaulted to `None` and `mimeType` defaulted to the
request's MIME type; anything else raises `ValueError` (line 104). -/
def uploadResponseParse (upload_data : Json) (mime_type : String) : Except PyExc Json :=
  -- line 88: if 'file' in upload_data and 'name' in upload_data['file']
  --                                   and 'uri' in upload_data['file']:
  match pyContains upload_data "file" with
  | .error e => .error e
  | .ok hasFile =>
    match (if hasFile then
             match pySubscriptStr upload_data "file" with
             | .error e => .error e
             | .ok f =>
               match pyContains f "name" with
               | .error e => .error e
               | .ok hasName => if hasName then pyContains f "uri" else .ok false
           else .ok false : Except PyExc Bool) with
    | .error e => .error e
    | .ok nested =>
      if nested then
        match pySubscriptStr upload_data "file" with
        | .error e => .error e
        | .ok file_info =>
          -- line 90: the log line interpolates file_info['name'], file_info['uri']
          match pySubscriptStr file_info "name" with
          | .error e => .error e
          | .ok _ =>
            match pySubscriptStr file_info "uri" with
            | .error e => .error e
            | .ok _ => .ok file_info
      else
        -- line 93: elif 'name' in upload_data
        --          and upload_data['name'].startswith('files/'):
        match pyContains upload_data "name" with
        | .error e => .error e
        | .ok hasName =>
          match (if hasName then
                   match pySubscriptStr upload_data "name" with
                   | .error e => .error e
                   | .ok n => pyStartsWith n "files/"
                 else .ok false : Except PyExc Bool) with
          | .error e => .error e
          | .ok flat =>
            if flat then
              -- line 94 interpolates upload_data['name'] and upload_data.get('uri');
              -- lines 96-100 build the normalized dictionary
              match pySubscriptStr upload_data "name" with
              | .error e => .error e
              | .ok nm =>
                match pyDictGet upload_data "uri" Json.null with
                | .error e => .error e
                | .ok uri =>
                  match pyDictGet upload_data "mimeType" (Json.str mime_type) with
                  | .error e => .error e
                  | .ok mt => .ok (Json.obj [("name", nm), ("uri", uri), ("mimeType", mt)])
            else
              .error (.valueError "Upload succeeded but response lacked expected 'file' details (name/uri).")

/-- One outbound `requests.post`: it can time out, fail with no response
attached, or yield a response with an HTTP status and a JSON body. -/
inductive HttpOutcome where
  | timeout
  | connError
  | resp (status : Nat) (body : Json)

/-- lines 47-118: the upload helper.  Any `requests`-level failure — timeout,
transport error, or a non-2xx answered by `raise_for_status` — is caught at
line 107 and re-raised as built-in `ConnectionError` (line 114); on a 2xx the
body is parsed and parse exceptions are re-raised unchanged (line 118). -/
def upload_to_gemini_file_api (outcome : HttpOutcome) (mime_type : String) : Except PyExc Json :=
  match outcome with
  | .timeout =>
    .error (.connectionError "Failed to upload file to Gemini processing service: timed out")
  | .connError =>
    .error (.connectionError "Failed to upload file to Gemini processing service: connection error")
  | .resp status body =>
    if 400 ≤ status then
      .error (.connectionError
        ("Failed to upload file to Gemini processing service: status " ++ toString status))
    else
      uploadResponseParse body mime_type

/-- An HTTP response of the relay: JSON body plus status code
(`jsonify(...)` with no explicit status is 200). -/
structure Resp where
  body : Json
  status : Nat

/-- `jsonify({"error": msg})`. -/
def errObj (msg : String) : Json :=
  Json.obj [("error", Json.str msg)]

/-- An outbound call the handler attempted, in order. -/
inductive Call where
  | uploadCall
  | generateCall (payload : Json)

/-- The inbound `/process-audio` request together with the oracles for
everything outside the handler: the configured key, the multipart field, the
`mimetypes.guess_type` answer, whether `audio_file.save` raises, and the two
upstream calls. -/
structure AudioEnv where
  api_key : Option String
  has_audio_file : Bool
  filename : String
  guessed_mime : Option String
  save_raises : Bool
  upload : HttpOutcome
  gen : HttpOutcome

/-- lines 167-175: MIME type used for the upload — the guess when it is an
`audio/` type, else the generic default. -/
def effectiveMime (guessed : Option String) : String :=
  match guessed with
  | some m => if strStartsWith m "audio/" then m else "application/octet-stream"
  | none => "application/octet-stream"

/-- lines 197-204: the instruction prompt sent with every audio request. -/
def audioPrompt : String :=
  "Please analyze the provided audio file referenced below.\n"
  ++ "1.  Generate an accurate transcription of the conversation.\n"
  ++ "2.  Identify the different speakers in the transcript. Label them clearly (e.g., 'Speaker A:', 'Speaker B:'). If only one speaker, note that.\n"
  ++ "3.  Provide a concise summary of the main topics discussed in the audio.\n"
  ++ "4.  If this audio appears to contain a meeting or discussion about tasks or actions, list any specific commitments or action items mentioned. Include who is responsible if specified.\n\n"
  ++ "Present the results clearly, perhaps using markdown sections for TRANSCRIPT, SPEAKERS, SUMMARY, and ACTION ITEMS for easy parsing later."

/-- lines 207-221: the generation payload for `/process-audio`, with the
uploaded file's `mimeType` and `uri` spliced in as `fileData`. -/
def audioPayload (mimeType fileUri : Json) : Json :=
  Json.obj [("contents", Json.arr [Json.obj [("parts", Json.arr
    [ Json.obj [("fileData", Json.obj [("mimeType", mimeType), ("fileUri", fileUri)])],
      Json.obj [("text", Json.str audioPrompt)] ])]])]

/-- lines 238-274, before the surrounding `except`: result extraction from a
2xx generation body.  Empty or absent `candidates` and empty `parts` are
error responses; the `text` of every part is joined with a newline and the
join trimmed; an empty trimmed text consults `finishReason` — a truthy value
other than `STOP` is an error naming it, anything else is an empty 200. -/
def extractAudioCore (response_data : Json) : Except PyExc Resp :=
  -- line 241: candidates = response_data.get('candidates', [])
  match pyDictGet response_data "candidates" (Json.arr []) with
  | .error e => .error e
  | .ok candidates =>
    if !pyTruthy candidates then
      .ok ⟨errObj "Processing service returned no content, possibly due to safety filters or an issue.", 500⟩
    else
      -- line 249: content = candidates[0].get('content', {})
      match pySubscriptNat candidates 0 with
      | .error e => .error e
      | .ok c0 =>
        match pyDictGet c0 "content" (Json.obj []) with
        | .error e => .error e
        | .ok content =>
          -- line 250: parts = content.get('parts', [])
          match pyDictGet content "parts" (Json.arr []) with
          | .error e => .error e
          | .ok parts =>
            if !pyTruthy parts then
              .ok ⟨errObj "Processing service returned empty content parts.", 500⟩
            else
              -- line 256: "\n".join([part.get('text', '') for part in parts]).strip()
              match pyIter parts with
              | .error e => .error e
              | .ok partList =>
                match mapExcept (fun p => pyDictGet p "text" (Json.str "")) partList with
                | .error e => .error e
                | .ok texts =>
                  match mapExcept joinArgStr texts with
                  | .error e => .error e
                  | .ok pieces =>
                    -- line 256: generated_text = "\n".join(...).strip()
                    if pyStrip (joinNl pieces) == "" then
                      -- lines 261-262: candidates[0].get('finishReason'),
                      -- candidates[0].get('safetyRatings') (log only)
                      match pySubscriptNat candidates 0 with
                      | .error e => .error e
                      | .ok c0b =>
                        match pyDictGet c0b "finishReason" Json.null with
                        | .error e => .error e
                        | .ok finish_reason =>
                          match pyDictGet c0b "safetyRatings" Json.null with
                          | .error e => .error e
                          | .ok _ =>
                            -- line 265: if finish_reason and finish_reason != 'STOP':
                            if pyTruthy finish_reason
                                && !(match finish_reason with
                                     | .str s => s == "STOP"
                                     | _ => false) then
                              .ok ⟨errObj ("Content generation stopped unexpectedly. Reason: "
                                    ++ pyStr finish_reason), 500⟩
                            else
                              .ok ⟨Json.obj [("processed_text", Json.str "")], 200⟩
                    else
                      .ok ⟨Json.obj [("processed_text", Json.str (pyStrip (joinNl pieces)))], 200⟩

/-- line 277: the classes of the inner `except (KeyError, IndexError,
TypeError, ValueError)` of `/process-audio`. -/
def excCaughtByAudioInner : PyExc → Bool
  | .keyError _ => true
  | .indexError => true
  | .typeError => true
  | .valueError _ => true
  | _ => false

/-- lines 238-280: extraction wrapped in its inner `except`, which converts
the four caught classes into the 500 parse-failure response; anything else
(only `AttributeError` can actually arise) keeps propagating. -/
def extractAudioResult (response_data : Json) : Except PyExc Resp :=
  match extractAudioCore response_data with
  | .ok r => .ok r
  | .error e =>
    if excCaughtByAudioInner e then
      .ok ⟨errObj "Failed to parse response from processing service after generation", 500⟩
    else .error e

/-- lines 283-304: the outer `except` chain of `/process-audio` —
`requests.exceptions.Timeout` (504), then `requests.exceptions.RequestException`
(upstream status when a response is attached, else 502, with a constant
client-facing message), then `except Exception` (lines 302-304).  The last
handler never reaches its `return jsonify(...), 500`: line 303 calls
`print(..., exc_info=True)`, and `print` accepts no `exc_info` keyword, so
the handler itself raises `TypeError`, which propagates out of the handler
unhandled (`.error`). -/
def audioExceptChain : PyExc → Except PyExc Resp
  | PyExc.timeoutExc =>
    .ok ⟨errObj "Processing service request timed out during analysis", 504⟩
  | PyExc.httpError s _ =>
    .ok ⟨errObj "Failed to communicate with the backend generative API for processing", s⟩
  | PyExc.connError =>
    .ok ⟨errObj "Failed to communicate with the backend generative API for processing", 502⟩
  | _ =>
    .error PyExc.typeError

/-- lines 160-300: the body of the `try` of `/process-audio`, from saving the
file up to extraction, together with the outbound calls attempted.  `.ok` is
a `return` inside the `try`; `.error` is an exception reaching the outer
`except` chain. -/
def audioTryBody (env : AudioEnv) : Except PyExc Resp × List Call :=
  -- line 162: audio_file.save(temp_path)
  if env.save_raises then (.error (.genericError "save failed"), [])
  else
    -- lines 166-175: mime_type := effectiveMime env.guessed_mime
    -- lines 179-189: Step 1, upload (errors become a 502 return)
    match upload_to_gemini_file_api env.upload (effectiveMime env.guessed_mime) with
    | .error upload_err =>
      (.ok ⟨errObj ("Failed to upload audio to processing service: " ++ excMsg upload_err), 502⟩,
       [Call.uploadCall])
    | .ok uploaded_file_info =>
      -- line 182: if not uploaded_file_info or 'uri' not in uploaded_file_info:
      if !pyTruthy uploaded_file_info then
        (.ok ⟨errObj "File uploaded but failed to get valid reference from processing service", 502⟩,
         [Call.uploadCall])
      else
        match pyContains uploaded_file_info "uri" with
        | .error e => (.error e, [Call.uploadCall])
        | .ok hasUri =>
          if !hasUri then
            (.ok ⟨errObj "File uploaded but failed to get valid reference from processing service", 502⟩,
             [Call.uploadCall])
          else
            -- line 193 interpolates uploaded_file_info['uri'];
            -- line 211 subscripts 'mimeType' and 'uri' building the payload
            match pySubscriptStr uploaded_file_info "uri" with
            | .error e => (.error e, [Call.uploadCall])
            | .ok _ =>
              match pySubscriptStr uploaded_file_info "mimeType" with
              | .error e => (.error e, [Call.uploadCall])
              | .ok mt =>
                match pySubscriptStr uploaded_file_info "uri" with
                | .error e => (.error e, [Call.uploadCall])
                | .ok uri =>
                  -- lines 207-221: payload := audioPayload mt uri
                  -- line 228: requests.post(GENERATE_CONTENT_URL, ...)
                  match env.gen with
                  | .timeout =>
                    (.error .timeoutExc,
                     [Call.uploadCall, Call.generateCall (audioPayload mt uri)])
                  | .connError =>
                    (.error .connError,
                     [Call.uploadCall, Call.generateCall (audioPayload mt uri)])
                  | .resp s b =>
                    -- line 231: response.raise_for_status()
                    if 400 ≤ s then
                      (.error (.httpError s b),
                       [Call.uploadCall, Call.generateCall (audioPayload mt uri)])
                    else
                      (extractAudioResult b,
                       [Call.uploadCall, Call.generateCall (audioPayload mt uri)])

/-- lines 123-314: the `/process-audio` handler.  Result: the handler's
outcome (`.ok` a returned HTTP response, `.error` an exception leaving the
handler unhandled — only via the broken `except Exception` block, see
`audioExceptChain`), the outbound calls attempted, and whether the temporary
file still exists afterwards (the `finally` block at lines 306-314 removes
it, and runs also while an exception is propagating). -/
def process_audio_file (env : AudioEnv) : Except PyExc Resp × List Call × Bool :=
  -- lines 136-138: credential pre-check
  if apiKeyFalsy env.api_key then
    (.ok ⟨errObj "API key not configured on the server", 500⟩, [], false)
  -- lines 141-143: multipart field pre-check
  else if !env.has_audio_file then
    (.ok ⟨errObj "Missing 'audio_file' in request files", 400⟩, [], false)
  -- lines 148-150: empty-filename pre-check
  else if env.filename == "" then
    (.ok ⟨errObj "No selected audio file", 400⟩, [], false)
  else
    -- line 162 onwards: the temp file is saved, then the try/except/finally
    let tempSaved := true
    let rc := audioTryBody env
    let finalResp :=
      match rc.1 with
      | .ok resp => .ok resp
      | .error e => audioExceptChain e
    -- lines 306-314: finally — remove the temp file when it exists
    let tempAfter := if tempSaved then false else tempSaved
    (finalResp, rc.2, tempAfter)

/-- The inbound `/generate` request: configured key, whether the request
carries a JSON content type, the parsed JSON body, and the generation-call
oracle. -/
structure GenEnv where
  api_key : Option String
  is_json : Bool
  body : Json
  gen : HttpOutcome

/-- line 354: the generation payload for `/generate`. -/
def genPayload (prompt_text : Json) : Json :=
  Json.obj [("contents", Json.arr [Json.obj [("parts", Json.arr
    [Json.obj [("text", prompt_text)]])]])]

/-- line 365: `response_data['candidates'][0]['content']['parts'][0]['text']` —
the first part of the first candidate only, with no concatenation and no
trimming. -/
def extractGenerateText (response_data : Json) : Except PyExc Json :=
  match pySubscriptStr response_data "candidates" with
  | .error e => .error e
  | .ok c =>
    match pySubscriptNat c 0 with
    | .error e => .error e
    | .ok c0 =>
      match pySubscriptStr c0 "content" with
      | .error e => .error e
      | .ok content =>
        match pySubscriptStr content "parts" with
        | .error e => .error e
        | .ok parts =>
          match pySubscriptNat parts 0 with
          | .error e => .error e
          | .ok p0 => pySubscriptStr p0 "text"

/-- line 369: the classes of the inner `except (KeyError, IndexError,
TypeError)` of `/generate` (no `ValueError` here, unlike `/process-audio`). -/
def excCaughtByGenInner : PyExc → Bool
  | .keyError _ => true
  | .indexError => true
  | .typeError => true
  | _ => false

/-- lines 328-391: the `/generate` handler.  `.ok` is a response produced by
the handler (with its outbound-call trace); `.error` is an exception leaving
the handler unhandled — `data.get('prompt')` at line 346 runs before the
`try` block, so a non-object JSON body raises `AttributeError` that nothing
in the handler catches. -/
def generate_content_text (env : GenEnv) : Except PyExc (Resp × List Call) :=
  -- lines 335-337: credential pre-check
  if apiKeyFalsy env.api_key then
    .ok (⟨errObj "API key not configured on the server", 500⟩, [])
  -- lines 341-343: content-type check
  else if !env.is_json then
    .ok (⟨errObj "Request must be JSON", 400⟩, [])
  else
    -- line 346: prompt_text = data.get('prompt')   (outside the try block)
    match pyDictGet env.body "prompt" Json.null with
    | .error e => .error e
    | .ok prompt_text =>
      -- lines 347-349
      if !pyTruthy prompt_text then
        .ok (⟨errObj "Missing 'prompt' key in JSON request", 400⟩, [])
      else
        let calls := [Call.generateCall (genPayload prompt_text)]
        -- line 359: requests.post(full_url, ...) inside the try block
        match env.gen with
        | .timeout =>
          .ok (⟨errObj "Processing service request timed out", 504⟩, calls)
        | .connError =>
          .ok (⟨errObj "Failed to communicate with the backend generative API", 502⟩, calls)
        | .resp s b =>
          -- line 360: response.raise_for_status(), handled at lines 378-388
          if 400 ≤ s then
            .ok (⟨errObj "Failed to communicate with the backend generative API", s⟩, calls)
          else
            match extractGenerateText b with
            | .ok t => .ok (⟨Json.obj [("generated_text", t)], 200⟩, calls)
            | .error e =>
              if excCaughtByGenInner e then
                .ok (⟨errObj "Failed to parse response from processing service", 500⟩, calls)
              else
                -- lines 389-391: except Exception.  Like the audio handler's
                -- (see audioExceptChain), line 390 calls
                -- print(..., exc_info=True), which raises TypeError before
                -- the 500 return at line 391; the extraction at line 365 in
                -- fact raises only the three caught classes, so this branch
                -- is unreachable.
                .error PyExc.typeError

/-- Whether a response body is the relay's JSON error shape
`{"error": <string>}`. -/
def isErrorResp (r : Resp) : Bool :=
  match r.body with
  | Json.obj [("error", Json.str _)] => true
  | _ => false

/-- A well-formed `/process-audio` response: either the error shape or a 200
with `{"processed_text": <string>}`. -/
def audioRespShape (r : Resp) : Bool :=
  isErrorResp r ||
    match r.body with
    | Json.obj [("processed_text", Json.str _)] => r.status == 200
    | _ => false

/-- A well-formed `/generate` response: either the error shape or a 200 with
`{"generated_text": <value>}`. -/
def genRespShape (r : Resp) : Bool :=
  isErrorResp r ||
    match r.body with
    | Json.obj [("generated_text", _)] => r.status == 200
    | _ => false

/-- Whether a JSON value is an object. -/
def isObjB : Json → Bool
  | .obj _ => true
  | _ => false

/-- Whether a raised value is a `ValueError`. -/
def excIsValueError : PyExc → Bool
  | .valueError _ => true
  | _ => false

/-- Bridge lemma: once a `/process-audio` request passes the pre-checks, the
save, the upload, the reference check and the payload subscripts, the handler
result is determined by the generation-call oracle, the trace holds exactly
the upload call and the generation call, and the temporary file is gone. -/
theorem process_audio_reach (env : AudioEnv) (us : Nat) (ub info mt uri : Json)
    (hkey : apiKeyFalsy env.api_key = false)
    (hfile : env.has_audio_file = true)
    (hname : (env.filename == "") = false)
    (hsave : env.save_raises = false)
    (hup : env.upload = .resp us ub)
    (hus : us < 400)
    (hparse : uploadResponseParse ub (effectiveMime env.guessed_mime) = .ok info)
    (htruthy : pyTruthy info = true)
    (hhas : pyContains info "uri" = .ok true)
    (huri : pySubscriptStr info "uri" = .ok uri)
    (hmt : pySubscriptStr info "mimeType" = .ok mt) :
    process_audio_file env =
      ((match env.gen with
        | .timeout => audioExceptChain .timeoutExc
        | .connError => audioExceptChain .connError
        | .resp s b =>
          if 400 ≤ s then audioExceptChain (.httpError s b)
          else
            match extractAudioResult b with
            | .ok r => .ok r
            | .error e => audioExceptChain e),
       [Call.uploadCall, Call.generateCall (audioPayload mt uri)], false) := by
  have h400 : ¬ (400 ≤ us) := Nat.not_le.mpr hus
  have hbody : audioTryBody env =
      ((match env.gen with
        | .timeout => .error .timeoutExc
        | .connError => .error .connError
        | .resp s b =>
          if 400 ≤ s then .error (.httpError s b) else extractAudioResult b),
       [Call.uploadCall, Call.generateCall (audioPayload mt uri)]) := by
    simp only [audioTryBody, hsave, hup, upload_to_gemini_file_api, h400, if_neg, if_false,
      Bool.false_eq_true, hparse, htruthy, hhas, huri, hmt, Bool.not_true]
    cases env.gen with
    | timeout => rfl
    | connError => rfl
    | resp s b => by_cases h : 400 ≤ s <;> simp [h]
  simp only [process_audio_file, hkey, hfile, hname, Bool.false_eq_true, if_neg, if_false,
    Bool.not_false, Bool.not_true, hbody]
  cases env.gen with
  | timeout => rfl
  | connError => rfl
  | resp s b =>
    by_cases h : 400 ≤ s
    · simp only [if_pos h]
      rfl
    · simp only [if_neg h]
      cases extractAudioResult b with
      | ok r => rfl
      | error e => rfl

/-- Bridge lemma: once a `/generate` request passes the credential and
content-type checks and carries a truthy `prompt`, the handler outcome is
determined by the generation-call oracle, with exactly one outbound call in
the trace wherever a response is returned. -/
theorem generate_reach (env : GenEnv) (p : Json)
    (hkey : apiKeyFalsy env.api_key = false)
    (hjson : env.is_json = true)
    (hp : pyDictGet env.body "prompt" Json.null = .ok p)
    (hpt : pyTruthy p = true) :
    generate_content_text env =
      (match env.gen with
       | .timeout =>
         .ok (⟨errObj "Processing service request timed out", 504⟩,
              [Call.generateCall (genPayload p)])
       | .connError =>
         .ok (⟨errObj "Failed to communicate with the backend generative API", 502⟩,
              [Call.generateCall (genPayload p)])
       | .resp s b =>
         if 400 ≤ s then
           .ok (⟨errObj "Failed to communicate with the backend generative API", s⟩,
                [Call.generateCall (genPayload p)])
         else
           match extractGenerateText b with
           | .ok t =>
             .ok (⟨Json.obj [("generated_text", t)], 200⟩,
                  [Call.generateCall (genPayload p)])
           | .error e =>
             if excCaughtByGenInner e then
               .ok (⟨errObj "Failed to parse response from processing service", 500⟩,
                    [Call.generateCall (genPayload p)])
             else .error PyExc.typeError) := by
  simp only [generate_content_text, hkey, hjson, Bool.false_eq_true, if_neg, if_false,
    Bool.not_true, hp, hpt]

/-- C1: for every inbound request to `/process-audio` or `/generate` with the
`GEMINI_API_KEY` credential unset, the handler returns the JSON error
`{"error": "API key not configured on the server"}` with HTTP status 500 and
an empty outbound-call trace — the 500 is produced before any upload or
generation call is attempted. -/
theorem C1_missing_key_short_circuits (aenv : AudioEnv) (genv : GenEnv)
    (ha : aenv.api_key = none) (hg : genv.api_key = none) :
    process_audio_file aenv
        = (.ok ⟨errObj "API key not configured on the server", 500⟩, [], false) ∧
    generate_content_text genv
        = .ok (⟨errObj "API key not configured on the server", 500⟩, []) := by
  constructor
  · simp [process_audio_file, ha, apiKeyFalsy]
  · simp [generate_content_text, hg, apiKeyFalsy]

/-- Witness for C1: a concrete request pair with the credential unset. -/
theorem C1_missing_key_short_circuits_witness :
    process_audio_file ⟨none, true, "a.wav", none, false, .timeout, .timeout⟩
        = (.ok ⟨errObj "API key not configured on the server", 500⟩, [], false) ∧
    generate_content_text ⟨none, true, Json.obj [], .timeout⟩
        = .ok (⟨errObj "API key not configured on the server", 500⟩, []) :=
  C1_missing_key_short_circuits _ _ rfl rfl

/-- C2: for every `/process-audio` request — along every exit path: pre-check
rejection, upload failure, generation failure, timeout, internal exception
(including the paths where the broken `except Exception` block makes the
handler propagate), or success — the temporary file is absent from the
filesystem by the time the handler finishes (the `finally` block removes it
whenever it was created, also while an exception is propagating). -/
theorem C2_temp_file_absent (env : AudioEnv) :
    (process_audio_file env).2.2 = false := by
  unfold process_audio_file
  split
  · rfl
  · split
    · rfl
    · split
      · rfl
      · rfl

/-- C9: the URL `/generate` posts to is `GENERATE_CONTENT_URL` with
`?key=` and the key appended a second time — the credential query parameter
occurs twice in the URL actually sent. -/
theorem C9_key_param_duplicated :
    (∀ k : String, generate_full_url k =
      "https://generativelanguage.googleapis.com/v1beta/models/gemini-1.5-flash-latest:generateContent?key="
        ++ k ++ "?key=" ++ k) ∧
    countSubstrOcc (generate_full_url "SECRET") "?key=" = 2 :=
  ⟨fun _ => rfl, rfl⟩

/-- C10: a 2xx flat staging body whose `name` starts with `files/` but which
has no `uri` field is accepted — the helper returns a reference whose `uri`
is `None`, the line-182 presence-only check passes, and `None` is forwarded
as the payload's `fileUri` to the generation call (recorded in the trace)
instead of being rejected as an upstream-format failure. -/
theorem C10_null_uri_forwarded (env : AudioEnv) (n : String) (us : Nat)
    (hkey : apiKeyFalsy env.api_key = false)
    (hfile : env.has_audio_file = true)
    (hname : (env.filename == "") = false)
    (hsave : env.save_raises = false)
    (hup : env.upload = .resp us (Json.obj [("name", Json.str n)]))
    (hus : us < 400)
    (hn : strStartsWith n "files/" = true) :
    upload_to_gemini_file_api env.upload (effectiveMime env.guessed_mime)
      = .ok (Json.obj [("name", Json.str n), ("uri", Json.null),
                       ("mimeType", Json.str (effectiveMime env.guessed_mime))]) ∧
    (process_audio_file env).2.1 =
      [Call.uploadCall,
       Call.generateCall (audioPayload (Json.str (effectiveMime env.guessed_mime)) Json.null)] := by
  have h400 : ¬ (400 ≤ us) := Nat.not_le.mpr hus
  have hparse : uploadResponseParse (Json.obj [("name", Json.str n)])
      (effectiveMime env.guessed_mime)
      = .ok (Json.obj [("name", Json.str n), ("uri", Json.null),
                       ("mimeType", Json.str (effectiveMime env.guessed_mime))]) := by
    simp [uploadResponseParse, pyContains, hasKeyL, pySubscriptStr, lookupKey,
      pyStartsWith, hn, pyDictGet]
  refine ⟨by simp [upload_to_gemini_file_api, hup, h400, hparse], ?_⟩
  rw [process_audio_reach env us (Json.obj [("name", Json.str n)])
      (Json.obj [("name", Json.str n), ("uri", Json.null),
                 ("mimeType", Json.str (effectiveMime env.guessed_mime))])
      (Json.str (effectiveMime env.guessed_mime)) Json.null
      hkey hfile hname hsave hup hus hparse rfl rfl rfl rfl]

/-- Witness for C10: a concrete flat body `{"name": "files/abc"}` with a
guessed `audio/wav` MIME type. -/
theorem C10_null_uri_forwarded_witness :
    upload_to_gemini_file_api (HttpOutcome.resp 200 (Json.obj [("name", Json.str "files/abc")]))
        "audio/wav"
      = .ok (Json.obj [("name", Json.str "files/abc"), ("uri", Json.null),
                       ("mimeType", Json.str "audio/wav")]) ∧
    (process_audio_file
        ⟨some "k", true, "a.wav", some "audio/wav", false,
         .resp 200 (Json.obj [("name", Json.str "files/abc")]), .timeout⟩).2.1 =
      [Call.uploadCall, Call.generateCall (audioPayload (Json.str "audio/wav") Json.null)] :=
  C10_null_uri_forwarded
    ⟨some "k", true, "a.wav", some "audio/wav", false,
     .resp 200 (Json.obj [("name", Json.str "files/abc")]), .timeout⟩
    "files/abc" 200 rfl rfl rfl rfl rfl (by decide) rfl

/-- C3: a 2xx generation response whose body has an empty or absent
`candidates` list makes `/process-audio` return the 500 no-content JSON
error, not a 200 success with empty text. -/
theorem C3_zero_candidates_is_error (env : AudioEnv) (us gs : Nat)
    (ub info mt uri : Json) (kvs : List (String × Json))
    (hkey : apiKeyFalsy env.api_key = false)
    (hfile : env.has_audio_file = true)
    (hname : (env.filename == "") = false)
    (hsave : env.save_raises = false)
    (hup : env.upload = .resp us ub)
    (hus : us < 400)
    (hparse : uploadResponseParse ub (effectiveMime env.guessed_mime) = .ok info)
    (htruthy : pyTruthy info = true)
    (hhas : pyContains info "uri" = .ok true)
    (huri : pySubscriptStr info "uri" = .ok uri)
    (hmt : pySubscriptStr info "mimeType" = .ok mt)
    (hgen : env.gen = .resp gs (Json.obj kvs))
    (hgs : gs < 400)
    (hcand : lookupKey kvs "candidates" = none
           ∨ lookupKey kvs "candidates" = some (Json.arr [])) :
    (process_audio_file env).1 =
      .ok ⟨errObj "Processing service returned no content, possibly due to safety filters or an issue.",
           500⟩ := by
  rw [process_audio_reach env us ub info mt uri hkey hfile hname hsave hup hus hparse
      htruthy hhas huri hmt]
  have h400 : ¬ (400 ≤ gs) := Nat.not_le.mpr hgs
  rcases hcand with h | h <;>
    simp [hgen, h400, extractAudioResult, extractAudioCore, pyDictGet, h, pyTruthy]

/-- Witness for C3: a concrete 2xx generation body `{}` (absent candidates). -/
theorem C3_zero_candidates_is_error_witness :
    (process_audio_file
        ⟨some "k", true, "a.wav", none, false,
         .resp 200 (Json.obj [("name", Json.str "files/abc"), ("uri", Json.str "u")]),
         .resp 200 (Json.obj [])⟩).1 =
      .ok ⟨errObj "Processing service returned no content, possibly due to safety filters or an issue.",
           500⟩ :=
  C3_zero_candidates_is_error _ 200 200
    (Json.obj [("name", Json.str "files/abc"), ("uri", Json.str "u")])
    (Json.obj [("name", Json.str "files/abc"), ("uri", Json.str "u"),
               ("mimeType", Json.str "application/octet-stream")])
    (Json.str "application/octet-stream") (Json.str "u") []
    rfl rfl rfl rfl rfl (by decide) rfl rfl rfl rfl rfl rfl (by decide) (Or.inl rfl)

/-- A part of a modelled generation body: `{"text": s}`, or `{}` when the
`text` field is absent. -/
def partOfOpt : Option String → Json
  | none => Json.obj []
  | some s => Json.obj [("text", Json.str s)]

/-- A generation body with one candidate: its `content.parts` and any further
candidate fields (e.g. `finishReason`). -/
def audioGenBody (frField : List (String × Json)) (parts : Json) : Json :=
  Json.obj [("candidates", Json.arr
    [Json.obj (("content", Json.obj [("parts", parts)]) :: frField)])]

/-- `part.get('text', '')` over a list of modelled parts. -/
theorem mapM_partOfOpt (items : List (Option String)) :
    mapExcept (fun p => pyDictGet p "text" (Json.str "")) (items.map partOfOpt) =
      .ok (items.map (fun i => Json.str (i.getD ""))) := by
  induction items with
  | nil => rfl
  | cons i rest ih =>
    simp only [List.map_cons, mapExcept, ih]
    cases i <;> rfl

/-- The join arguments of the modelled parts are all strings. -/
theorem mapM_joinArg (items : List (Option String)) :
    mapExcept joinArgStr (items.map (fun i => Json.str (i.getD ""))) =
      .ok (items.map (fun i => i.getD "")) := by
  induction items with
  | nil => rfl
  | cons i rest ih =>
    simp only [List.map_cons, mapExcept, ih]
    rfl

/-- Evaluation of the extraction step on a structured one-candidate body:
the part texts (absent `text` contributing the empty string) are joined with
a newline and stripped; a non-empty result is a 200; an empty result
consults `finishReason` — a truthy value other than `STOP` is a 500 naming
it, anything else (absent, `null`, empty string, or `STOP`) an empty 200. -/
theorem extractAudioResult_structured (frField : List (String × Json))
    (items : List (Option String)) (hne : items ≠ []) :
    extractAudioResult (audioGenBody frField (Json.arr (items.map partOfOpt))) =
      .ok (if pyStrip (joinNl (items.map fun i => i.getD "")) == "" then
             (if pyTruthy ((lookupKey frField "finishReason").getD Json.null)
                 && !(match (lookupKey frField "finishReason").getD Json.null with
                      | Json.str s => s == "STOP"
                      | _ => false) then
                ⟨errObj ("Content generation stopped unexpectedly. Reason: "
                  ++ pyStr ((lookupKey frField "finishReason").getD Json.null)), 500⟩
              else ⟨Json.obj [("processed_text", Json.str "")], 200⟩)
           else ⟨Json.obj [("processed_text",
                  Json.str (pyStrip (joinNl (items.map fun i => i.getD ""))))], 200⟩) := by
  cases items with
  | nil => exact absurd rfl hne
  | cons i rest =>
    have hmap1 := mapM_partOfOpt (i :: rest)
    have hmap2 := mapM_joinArg (i :: rest)
    simp only [List.map_cons] at hmap1 hmap2
    simp only [pyDictGet] at hmap1
    simp [audioGenBody, extractAudioResult, extractAudioCore, pyDictGet, lookupKey,
      pySubscriptNat, pyIter, pyTruthy, hmap1, hmap2]
    split_ifs <;> simp

/-- C4 counterexample: a 2xx generation response with one candidate, one part
with empty text, and `finishReason` present with the value `""` — which is
present and not `'STOP'`, so the claim prescribes an error response naming
the reason.  The code tests truthiness, not presence (line 265:
`if finish_reason and finish_reason != 'STOP'`), so it returns the 200 empty
success instead. -/
theorem C4_counterexample :
    (process_audio_file
      ⟨some "k", true, "a.wav", none, false,
       .resp 200 (Json.obj [("name", Json.str "files/f"), ("uri", Json.str "u")]),
       .resp 200 (Json.obj [("candidates", Json.arr [Json.obj [
          ("content", Json.obj [("parts", Json.arr [Json.obj [("text", Json.str "")]])]),
          ("finishReason", Json.str "")]])])⟩).1
      = .ok ⟨Json.obj [("processed_text", Json.str "")], 200⟩ := by rfl

/-- C4 (amended): for a 2xx generation response with non-empty candidates and
non-empty parts whose joined-and-stripped text is empty, `/process-audio`
branches on the truthiness of `finishReason`, not its presence: a truthy
`finishReason` other than `STOP` yields a 500 error naming that reason; a
falsy `finishReason` (absent, `null`, `""`, `0`, `false`) or the value
`STOP` yields HTTP 200 with `{"processed_text": ""}`. -/
theorem C4_empty_text_branches_on_truthy_finish_reason (env : AudioEnv) (us gs : Nat)
    (ub info mt uri : Json) (frOpt : Option Json) (items : List (Option String))
    (hkey : apiKeyFalsy env.api_key = false)
    (hfile : env.has_audio_file = true)
    (hname : (env.filename == "") = false)
    (hsave : env.save_raises = false)
    (hup : env.upload = .resp us ub)
    (hus : us < 400)
    (hparse : uploadResponseParse ub (effectiveMime env.guessed_mime) = .ok info)
    (htruthy : pyTruthy info = true)
    (hhas : pyContains info "uri" = .ok true)
    (huri : pySubscriptStr info "uri" = .ok uri)
    (hmt : pySubscriptStr info "mimeType" = .ok mt)
    (hgen : env.gen = .resp gs (audioGenBody
        (match frOpt with | some fr => [("finishReason", fr)] | none => [])
        (Json.arr (items.map partOfOpt))))
    (hgs : gs < 400)
    (hne : items ≠ [])
    (hempty : pyStrip (joinNl (items.map fun i => i.getD "")) = "") :
    (process_audio_file env).1 =
      .ok (if pyTruthy (frOpt.getD Json.null)
          && !(match frOpt.getD Json.null with
               | Json.str s => s == "STOP"
               | _ => false) then
         ⟨errObj ("Content generation stopped unexpectedly. Reason: "
            ++ pyStr (frOpt.getD Json.null)), 500⟩
       else ⟨Json.obj [("processed_text", Json.str "")], 200⟩) := by
  rw [process_audio_reach env us ub info mt uri hkey hfile hname hsave hup hus hparse
      htruthy hhas huri hmt]
  have h400 : ¬ (400 ≤ gs) := Nat.not_le.mpr hgs
  cases frOpt with
  | none =>
    have hstruct := extractAudioResult_structured [] items hne
    simp [hgen, h400, hstruct, hempty, lookupKey, pyTruthy]
  | some fr =>
    have hstruct := extractAudioResult_structured [("finishReason", fr)] items hne
    simp [hgen, h400, hstruct, hempty, lookupKey]

/-- Witness for the amended C4: `finishReason` `"MAX_TOKENS"` with one empty
text part yields the 500 naming the reason. -/
theorem C4_empty_text_branches_witness :
    (process_audio_file
      ⟨some "k", true, "a.wav", none, false,
       .resp 200 (Json.obj [("name", Json.str "files/f"), ("uri", Json.str "u")]),
       .resp 200 (audioGenBody [("finishReason", Json.str "MAX_TOKENS")]
         (Json.arr ([some ""].map partOfOpt)))⟩).1
      = .ok ⟨errObj "Content generation stopped unexpectedly. Reason: MAX_TOKENS", 500⟩ := by
  have h := C4_empty_text_branches_on_truthy_finish_reason
    ⟨some "k", true, "a.wav", none, false,
     .resp 200 (Json.obj [("name", Json.str "files/f"), ("uri", Json.str "u")]),
     .resp 200 (audioGenBody [("finishReason", Json.str "MAX_TOKENS")]
       (Json.arr ([some ""].map partOfOpt)))⟩
    200 200
    (Json.obj [("name", Json.str "files/f"), ("uri", Json.str "u")])
    (Json.obj [("name", Json.str "files/f"), ("uri", Json.str "u"),
               ("mimeType", Json.str "application/octet-stream")])
    (Json.str "application/octet-stream") (Json.str "u")
    (some (Json.str "MAX_TOKENS")) [some ""]
    rfl rfl rfl rfl rfl (by decide) rfl rfl rfl rfl rfl rfl (by decide)
    (by decide) rfl
  exact h.trans (by rfl)

/-- C7 counterexample: on the same 2xx generation body with two parts
(`"a"` and `"b"`), `/process-audio` returns `"a\nb"` (newline-joined) while
`/generate` returns `"a"` — the first part alone, unconcatenated and
untrimmed.  The two endpoints do not extract by the same algorithm, and the
audio path joins with a newline separator rather than plain concatenation. -/
theorem C7_counterexample :
    (process_audio_file
      ⟨some "k", true, "a.wav", none, false,
       .resp 200 (Json.obj [("name", Json.str "files/f"), ("uri", Json.str "u")]),
       .resp 200 (Json.obj [("candidates", Json.arr [Json.obj [
         ("content", Json.obj [("parts", Json.arr
           [Json.obj [("text", Json.str "a")], Json.obj [("text", Json.str "b")]])])]])])⟩).1
      = .ok ⟨Json.obj [("processed_text", Json.str "a\nb")], 200⟩ ∧
    generate_content_text
      ⟨some "k", true, Json.obj [("prompt", Json.str "Say hello")],
       .resp 200 (Json.obj [("candidates", Json.arr [Json.obj [
         ("content", Json.obj [("parts", Json.arr
           [Json.obj [("text", Json.str "a")], Json.obj [("text", Json.str "b")]])])]])])⟩
      = .ok (⟨Json.obj [("generated_text", Json.str "a")], 200⟩,
             [Call.generateCall (genPayload (Json.str "Say hello"))]) :=
  ⟨by rfl, by rfl⟩

/-- C7 (amended): the two endpoints extract differently.  `/process-audio`
joins the `text` field of every part with a newline separator (a missing
`text` field contributing the empty string) and strips the join;
`/generate` returns exactly `candidates[0].content.parts[0].text` with no
concatenation and no trimming, and a first part without a `text` field is a
`KeyError` answered by the 500 parse-failure error rather than an empty
string. -/
theorem C7_extraction_differs :
    (∀ (env : AudioEnv) (us gs : Nat) (ub info mt uri : Json)
       (items : List (Option String)),
      apiKeyFalsy env.api_key = false → env.has_audio_file = true →
      (env.filename == "") = false → env.save_raises = false →
      env.upload = .resp us ub → us < 400 →
      uploadResponseParse ub (effectiveMime env.guessed_mime) = .ok info →
      pyTruthy info = true → pyContains info "uri" = .ok true →
      pySubscriptStr info "uri" = .ok uri → pySubscriptStr info "mimeType" = .ok mt →
      env.gen = .resp gs (audioGenBody [] (Json.arr (items.map partOfOpt))) →
      gs < 400 → items ≠ [] →
      pyStrip (joinNl (items.map fun i => i.getD "")) ≠ "" →
      (process_audio_file env).1 =
        .ok ⟨Json.obj [("processed_text",
           Json.str (pyStrip (joinNl (items.map fun i => i.getD ""))))], 200⟩) ∧
    (∀ (genv : GenEnv) (p : Json) (gs : Nat) (t : Json)
       (restParts restCands : List Json),
      apiKeyFalsy genv.api_key = false → genv.is_json = true →
      pyDictGet genv.body "prompt" Json.null = .ok p → pyTruthy p = true →
      genv.gen = .resp gs (Json.obj [("candidates", Json.arr
        (Json.obj [("content", Json.obj [("parts",
           Json.arr (Json.obj [("text", t)] :: restParts))])] :: restCands))]) →
      gs < 400 →
      generate_content_text genv =
        .ok (⟨Json.obj [("generated_text", t)], 200⟩,
             [Call.generateCall (genPayload p)])) ∧
    (∀ (genv : GenEnv) (p : Json) (gs : Nat) (restParts restCands : List Json),
      apiKeyFalsy genv.api_key = false → genv.is_json = true →
      pyDictGet genv.body "prompt" Json.null = .ok p → pyTruthy p = true →
      genv.gen = .resp gs (Json.obj [("candidates", Json.arr
        (Json.obj [("content", Json.obj [("parts",
           Json.arr (Json.obj [] :: restParts))])] :: restCands))]) →
      gs < 400 →
      generate_content_text genv =
        .ok (⟨errObj "Failed to parse response from processing service", 500⟩,
             [Call.generateCall (genPayload p)])) := by
  refine ⟨?_, ?_, ?_⟩
  · intro env us gs ub info mt uri items hkey hfile hname hsave hup hus hparse htruthy
      hhas huri hmt hgen hgs hne hnonempty
    rw [process_audio_reach env us ub info mt uri hkey hfile hname hsave hup hus hparse
        htruthy hhas huri hmt]
    have h400 : ¬ (400 ≤ gs) := Nat.not_le.mpr hgs
    have hstruct := extractAudioResult_structured [] items hne
    simp [hgen, h400, hstruct, hnonempty]
  · intro genv p gs t restParts restCands hkey hjson hp hpt hgen hgs
    rw [generate_reach genv p hkey hjson hp hpt]
    have h400 : ¬ (400 ≤ gs) := Nat.not_le.mpr hgs
    simp [hgen, h400, extractGenerateText, pySubscriptStr, pySubscriptNat, lookupKey]
  · intro genv p gs restParts restCands hkey hjson hp hpt hgen hgs
    rw [generate_reach genv p hkey hjson hp hpt]
    have h400 : ¬ (400 ≤ gs) := Nat.not_le.mpr hgs
    simp [hgen, h400, extractGenerateText, pySubscriptStr, pySubscriptNat, lookupKey,
      excCaughtByGenInner]

/-- Witness for the amended C7: the three cases at concrete requests. -/
theorem C7_extraction_differs_witness :
    (process_audio_file
      ⟨some "k", true, "a.wav", none, false,
       .resp 200 (Json.obj [("name", Json.str "files/f"), ("uri", Json.str "u")]),
       .resp 200 (audioGenBody []
         (Json.arr ([some " x ", none].map partOfOpt)))⟩).1
      = .ok ⟨Json.obj [("processed_text", Json.str "x")], 200⟩ ∧
    generate_content_text
      ⟨some "k", true, Json.obj [("prompt", Json.str "p")],
       .resp 200 (Json.obj [("candidates", Json.arr
         [Json.obj [("content", Json.obj [("parts",
            Json.arr [Json.obj [("text", Json.str " x ")]])])]])])⟩
      = .ok (⟨Json.obj [("generated_text", Json.str " x ")], 200⟩,
             [Call.generateCall (genPayload (Json.str "p"))]) ∧
    generate_content_text
      ⟨some "k", true, Json.obj [("prompt", Json.str "p")],
       .resp 200 (Json.obj [("candidates", Json.arr
         [Json.obj [("content", Json.obj [("parts", Json.arr [Json.obj []])])]])])⟩
      = .ok (⟨errObj "Failed to parse response from processing service", 500⟩,
             [Call.generateCall (genPayload (Json.str "p"))]) := by
  refine ⟨?_, ?_, ?_⟩
  · have h := C7_extraction_differs.1
      ⟨some "k", true, "a.wav", none, false,
       .resp 200 (Json.obj [("name", Json.str "files/f"), ("uri", Json.str "u")]),
       .resp 200 (audioGenBody [] (Json.arr ([some " x ", none].map partOfOpt)))⟩
      200 200
      (Json.obj [("name", Json.str "files/f"), ("uri", Json.str "u")])
      (Json.obj [("name", Json.str "files/f"), ("uri", Json.str "u"),
                 ("mimeType", Json.str "application/octet-stream")])
      (Json.str "application/octet-stream") (Json.str "u")
      [some " x ", none]
      rfl rfl rfl rfl rfl (by decide) rfl rfl rfl rfl rfl rfl (by decide)
      (by decide) (by decide)
    exact h.trans (by rfl)
  · exact C7_extraction_differs.2.1
      ⟨some "k", true, Json.obj [("prompt", Json.str "p")],
       .resp 200 (Json.obj [("candidates", Json.arr
         [Json.obj [("content", Json.obj [("parts",
            Json.arr [Json.obj [("text", Json.str " x ")]])])]])])⟩
      (Json.str "p") 200 (Json.str " x ") [] []
      rfl rfl rfl rfl rfl (by decide)
  · exact C7_extraction_differs.2.2
      ⟨some "k", true, Json.obj [("prompt", Json.str "p")],
       .resp 200 (Json.obj [("candidates", Json.arr
         [Json.obj [("content", Json.obj [("parts", Json.arr [Json.obj []])])]])])⟩
      (Json.str "p") 200 [] []
      rfl rfl rfl rfl rfl (by decide)

/-- `hasKeyL` over a cons, by definition. -/
theorem hasKeyL_cons (k : String) (v : Json) (rest : List (String × Json)) (key : String) :
    hasKeyL ((k, v) :: rest) key = (k == key || hasKeyL rest key) := by
  simp [hasKeyL]

/-- Key presence coincides with a successful first-match lookup. -/
theorem hasKeyL_iff_lookup (kvs : List (String × Json)) (key : String) :
    hasKeyL kvs key = true ↔ (lookupKey kvs key).isSome := by
  induction kvs with
  | nil => simp [hasKeyL, lookupKey]
  | cons kv rest ih =>
    cases kv with
    | mk k0 v0 => by_cases he : k0 = key <;> simp [hasKeyL_cons, lookupKey, he, ih]

/-- A successful string subscript forces a dict with that key. -/
theorem pySubscriptStr_ok (j : Json) (k : String) (v : Json)
    (h : pySubscriptStr j k = .ok v) :
    ∃ kvs, j = Json.obj kvs ∧ lookupKey kvs k = some v := by
  cases j with
  | obj kvs =>
    refine ⟨kvs, rfl, ?_⟩
    cases hl : lookupKey kvs k with
    | some w => simp only [pySubscriptStr, hl] at h; cases h; rfl
    | none => simp [pySubscriptStr, hl] at h
  | null => simp [pySubscriptStr] at h
  | bool b => simp [pySubscriptStr] at h
  | num n => simp [pySubscriptStr] at h
  | str s => simp [pySubscriptStr] at h
  | arr xs => simp [pySubscriptStr] at h

/-- Any successful parse of a staging body yields a dict carrying both a
`name` and a `uri` key — never partial data. -/
theorem uploadParse_ok_shape (j : Json) (mt : String) (r : Json)
    (h : uploadResponseParse j mt = .ok r) :
    ∃ kvs, r = Json.obj kvs ∧ hasKeyL kvs "name" = true ∧ hasKeyL kvs "uri" = true := by
  unfold uploadResponseParse at h
  split at h
  · cases h
  · split at h
    · cases h
    · split at h
      · -- nested branch
        split at h
        · cases h
        · rename_i file_info hfile_info
          split at h
          · cases h
          · rename_i v1 hv1
            split at h
            · cases h
            · rename_i v2 hv2
              cases h
              obtain ⟨kvs, hobj, hl1⟩ := pySubscriptStr_ok _ _ _ hv1
              obtain ⟨kvs2, hobj2, hl2⟩ := pySubscriptStr_ok _ _ _ hv2
              rw [hobj] at hobj2
              injection hobj2 with hk
              subst hk
              subst hobj
              refine ⟨kvs, rfl, ?_, ?_⟩
              · rw [hasKeyL_iff_lookup, hl1]; rfl
              · rw [hasKeyL_iff_lookup, hl2]; rfl
      · -- flat branch
        split at h
        · cases h
        · split at h
          · cases h
          · split at h
            · split at h
              · cases h
              · split at h
                · cases h
                · split at h
                  · cases h
                  · cases h
                    exact ⟨_, rfl, by rfl, by rfl⟩
            · cases h

/-- C5 counterexample: the 2xx staging body `{"name": 42}` matches neither
recognized shape, and parsing raises `AttributeError` (line 93 calls
`.startswith` on the non-string `name` value), not the `ValueError` the
claim names.  An error is still raised — no partial data — but its kind
differs from the claim's. -/
theorem C5_counterexample :
    uploadResponseParse (Json.obj [("name", Json.num 42)]) "audio/wav"
        = .error PyExc.attributeError ∧
    excIsValueError PyExc.attributeError = false :=
  ⟨by rfl, by rfl⟩

/-- C5 (amended): the staging-response parser recognizes exactly the two
documented shapes.  A body with the reference nested under `file` (any dict
carrying `name` and `uri` keys) is returned whole; a flat body whose `name`
starts with `files/` is normalized with defaulted `uri`/`mimeType`; nested
and flat bodies carrying the same fields parse to the same reference; and
every successful parse yields a dict with both `name` and `uri` keys (never
partial data).  Any other 2xx shape raises an error — a `ValueError` when
the shape tests themselves fail, but a `TypeError`/`AttributeError` when a
recognized key holds a value of the wrong type. -/
theorem C5_two_shapes_normalized :
    (∀ (kvs rest : List (String × Json)) (mt : String),
      hasKeyL kvs "name" = true → hasKeyL kvs "uri" = true →
      uploadResponseParse (Json.obj (("file", Json.obj kvs) :: rest)) mt
        = .ok (Json.obj kvs)) ∧
    (∀ (n : String) (u m : Json) (mt : String),
      strStartsWith n "files/" = true →
      uploadResponseParse (Json.obj [("name", Json.str n), ("uri", u), ("mimeType", m)]) mt
        = .ok (Json.obj [("name", Json.str n), ("uri", u), ("mimeType", m)])) ∧
    (∀ (n : String) (u m : Json) (mt : String),
      strStartsWith n "files/" = true →
      uploadResponseParse
          (Json.obj [("file", Json.obj [("name", Json.str n), ("uri", u), ("mimeType", m)])]) mt
        = uploadResponseParse (Json.obj [("name", Json.str n), ("uri", u), ("mimeType", m)]) mt) ∧
    (∀ (j : Json) (mt : String) (r : Json),
      uploadResponseParse j mt = .ok r →
      ∃ kvs, r = Json.obj kvs ∧ hasKeyL kvs "name" = true ∧ hasKeyL kvs "uri" = true) := by
  have hnested : ∀ (kvs rest : List (String × Json)) (mt : String),
      hasKeyL kvs "name" = true → hasKeyL kvs "uri" = true →
      uploadResponseParse (Json.obj (("file", Json.obj kvs) :: rest)) mt
        = .ok (Json.obj kvs) := by
    intro kvs rest mt h1 h2
    obtain ⟨v1, hv1⟩ := Option.isSome_iff_exists.mp ((hasKeyL_iff_lookup _ _).mp h1)
    obtain ⟨v2, hv2⟩ := Option.isSome_iff_exists.mp ((hasKeyL_iff_lookup _ _).mp h2)
    simp [uploadResponseParse, pyContains, pySubscriptStr, lookupKey, hasKeyL_cons,
      h1, h2, hv1, hv2]
  have hflat : ∀ (n : String) (u m : Json) (mt : String),
      strStartsWith n "files/" = true →
      uploadResponseParse (Json.obj [("name", Json.str n), ("uri", u), ("mimeType", m)]) mt
        = .ok (Json.obj [("name", Json.str n), ("uri", u), ("mimeType", m)]) := by
    intro n u m mt hn
    simp [uploadResponseParse, pyContains, pySubscriptStr, pyDictGet, lookupKey, hasKeyL,
      pyStartsWith, hn]
  refine ⟨hnested, hflat, ?_, uploadParse_ok_shape⟩
  intro n u m mt hn
  rw [hflat n u m mt hn, hnested _ [] mt (by rfl) (by rfl)]

/-- Witness for the amended C5: the four conjuncts at a concrete nested/flat
body pair carrying the same `name`, `uri` and `mimeType`. -/
theorem C5_two_shapes_normalized_witness :
    uploadResponseParse
        (Json.obj [("file", Json.obj [("name", Json.str "files/w"), ("uri", Json.str "u"),
                                       ("mimeType", Json.str "audio/wav")])]) "audio/wav"
      = .ok (Json.obj [("name", Json.str "files/w"), ("uri", Json.str "u"),
                       ("mimeType", Json.str "audio/wav")]) ∧
    uploadResponseParse
        (Json.obj [("name", Json.str "files/w"), ("uri", Json.str "u"),
                   ("mimeType", Json.str "audio/wav")]) "audio/wav"
      = .ok (Json.obj [("name", Json.str "files/w"), ("uri", Json.str "u"),
                       ("mimeType", Json.str "audio/wav")]) ∧
    uploadResponseParse
        (Json.obj [("file", Json.obj [("name", Json.str "files/w"), ("uri", Json.str "u"),
                                       ("mimeType", Json.str "audio/wav")])]) "audio/wav"
      = uploadResponseParse
          (Json.obj [("name", Json.str "files/w"), ("uri", Json.str "u"),
                     ("mimeType", Json.str "audio/wav")]) "audio/wav" ∧
    (∃ kvs, Json.obj [("name", Json.str "files/w"), ("uri", Json.str "u"),
                      ("mimeType", Json.str "audio/wav")] = Json.obj kvs ∧
            hasKeyL kvs "name" = true ∧ hasKeyL kvs "uri" = true) :=
  ⟨C5_two_shapes_normalized.1
      [("name", Json.str "files/w"), ("uri", Json.str "u"), ("mimeType", Json.str "audio/wav")]
      [] "audio/wav" (by rfl) (by rfl),
   C5_two_shapes_normalized.2.1 "files/w" (Json.str "u") (Json.str "audio/wav") "audio/wav"
      (by rfl),
   C5_two_shapes_normalized.2.2.1 "files/w" (Json.str "u") (Json.str "audio/wav") "audio/wav"
      (by rfl),
   C5_two_shapes_normalized.2.2.2 _ "audio/wav" _
      (C5_two_shapes_normalized.2.1 "files/w" (Json.str "u") (Json.str "audio/wav") "audio/wav"
        (by rfl))⟩

/-- Every response the extraction step can produce is well-shaped. -/
theorem extractAudioCore_ok_shape (b : Json) (r : Resp)
    (h : extractAudioCore b = .ok r) : audioRespShape r = true := by
  unfold extractAudioCore at h
  repeat' first | split at h | split_ifs at h
  all_goals cases h <;> rfl

/-- Every response the inner-`except`-wrapped extraction produces is
well-shaped. -/
theorem extractAudioResult_ok_shape (b : Json) (r : Resp)
    (h : extractAudioResult b = .ok r) : audioRespShape r = true := by
  unfold extractAudioResult at h
  split at h
  · rename_i r0 heq
    cases h
    exact extractAudioCore_ok_shape b _ heq
  · split at h
    · cases h; rfl
    · cases h

/-- Every `return` inside the `try` of `/process-audio` is well-shaped. -/
theorem audioTryBody_ok_shape (env : AudioEnv) (r : Resp) (calls : List Call)
    (h : audioTryBody env = (.ok r, calls)) : audioRespShape r = true := by
  unfold audioTryBody at h
  repeat' split at h
  all_goals injection h with h1 h2
  all_goals
    first
    | exact extractAudioResult_ok_shape _ _ h1
    | (cases h1 <;> rfl)

/-- The faithfully-returning arms of the outer `except` chain answer with the
error shape; the broken catch-all never returns. -/
theorem audioExceptChain_ok_shape (e : PyExc) (r : Resp)
    (h : audioExceptChain e = .ok r) : audioRespShape r = true := by
  cases e <;> simp [audioExceptChain] at h <;> subst h <;> rfl

/-- Whenever `/process-audio` returns a response, it is either
`{"error": string}` or a 200 `{"processed_text": string}`. -/
theorem process_audio_file_shape (env : AudioEnv) (r : Resp)
    (h : (process_audio_file env).1 = .ok r) : audioRespShape r = true := by
  unfold process_audio_file at h
  split at h
  · cases h; rfl
  · split at h
    · cases h; rfl
    · split at h
      · cases h; rfl
      · rcases hrc : audioTryBody env with ⟨r1, r2⟩
        rw [hrc] at h
        cases r1 with
        | ok resp =>
          cases h
          exact audioTryBody_ok_shape env _ r2 hrc
        | error e => exact audioExceptChain_ok_shape e r h

/-- A failed string subscript raises `KeyError` for that key or
`TypeError`. -/
theorem pySubscriptStr_error (j : Json) (k : String) (e : PyExc)
    (h : pySubscriptStr j k = .error e) :
    e = .keyError k ∨ e = .typeError := by
  cases j with
  | obj kvs =>
    cases hl : lookupKey kvs k with
    | some w => simp [pySubscriptStr, hl] at h
    | none => simp only [pySubscriptStr, hl] at h; cases h; exact Or.inl rfl
  | null => cases h; exact Or.inr rfl
  | bool b => cases h; exact Or.inr rfl
  | num n => cases h; exact Or.inr rfl
  | str s => cases h; exact Or.inr rfl
  | arr xs => cases h; exact Or.inr rfl

/-- A failed integer subscript raises `IndexError`, `KeyError`, or
`TypeError`. -/
theorem pySubscriptNat_error (j : Json) (i : Nat) (e : PyExc)
    (h : pySubscriptNat j i = .error e) :
    e = .indexError ∨ e = .keyError (toString i) ∨ e = .typeError := by
  cases j with
  | arr xs =>
    cases hl : xs.get? i with
    | some w => rw [pySubscriptNat, hl] at h; cases h
    | none => rw [pySubscriptNat, hl] at h; cases h; exact Or.inl rfl
  | str s =>
    cases hl : s.toList.get? i with
    | some w => rw [pySubscriptNat, hl] at h; cases h
    | none => rw [pySubscriptNat, hl] at h; cases h; exact Or.inl rfl
  | obj kvs => cases h; exact Or.inr (Or.inl rfl)
  | null => cases h; exact Or.inr (Or.inr rfl)
  | bool b => cases h; exact Or.inr (Or.inr rfl)
  | num n => cases h; exact Or.inr (Or.inr rfl)

/-- The `/generate` extraction (a chain of subscripts) can only raise
`KeyError`, `IndexError` or `TypeError` — exactly the classes its inner
`except` catches, so its `except Exception` branch is unreachable. -/
theorem extractGenerateText_error_caught (b : Json) (e : PyExc)
    (h : extractGenerateText b = .error e) : excCaughtByGenInner e = true := by
  unfold extractGenerateText at h
  split at h
  · rename_i e1 heq
    cases h
    rcases pySubscriptStr_error _ _ _ heq with h2 | h2 <;> subst h2 <;> rfl
  · split at h
    · rename_i e1 heq
      cases h
      rcases pySubscriptNat_error _ _ _ heq with h2 | h2 | h2 <;> subst h2 <;> rfl
    · split at h
      · rename_i e1 heq
        cases h
        rcases pySubscriptStr_error _ _ _ heq with h2 | h2 <;> subst h2 <;> rfl
      · split at h
        · rename_i e1 heq
          cases h
          rcases pySubscriptStr_error _ _ _ heq with h2 | h2 <;> subst h2 <;> rfl
        · split at h
          · rename_i e1 heq
            cases h
            rcases pySubscriptNat_error _ _ _ heq with h2 | h2 | h2 <;> subst h2 <;> rfl
          · rcases pySubscriptStr_error _ _ _ h with h2 | h2 <;> subst h2 <;> rfl

/-- Every `/generate` response on an object JSON body is either
`{"error": string}` or a 200 `{"generated_text": value}` (the broken
`except Exception` branch is unreachable: the extraction raises only the
caught classes). -/
theorem generate_shape_obj (genv : GenEnv) (hobj : isObjB genv.body = true) :
    ∃ r calls, generate_content_text genv = .ok (r, calls) ∧ genRespShape r = true := by
  unfold generate_content_text
  split
  · exact ⟨_, _, rfl, rfl⟩
  · split
    · exact ⟨_, _, rfl, rfl⟩
    · cases hb : genv.body with
      | obj kvs =>
        simp only [hb, pyDictGet]
        split
        · exact ⟨_, _, rfl, rfl⟩
        · split
          · exact ⟨_, _, rfl, rfl⟩
          · exact ⟨_, _, rfl, rfl⟩
          · split
            · exact ⟨_, _, rfl, rfl⟩
            · split
              · exact ⟨_, _, rfl, rfl⟩
              · rename_i e heq
                split
                · exact ⟨_, _, rfl, rfl⟩
                · rename_i hnot
                  exact absurd (extractGenerateText_error_caught _ _ heq) hnot
      | null => rw [hb] at hobj; cases hobj
      | bool b => rw [hb] at hobj; cases hobj
      | num n => rw [hb] at hobj; cases hobj
      | str s => rw [hb] at hobj; cases hobj
      | arr xs => rw [hb] at hobj; cases hobj

/-- A `/generate` request stopped by a pre-check is answered with the error
shape and no outbound call. -/
theorem generate_shape_precheck (genv : GenEnv)
    (h : apiKeyFalsy genv.api_key = true ∨ genv.is_json = false) :
    ∃ r, generate_content_text genv = .ok (r, []) ∧ genRespShape r = true := by
  rcases h with h | h
  · refine ⟨⟨errObj "API key not configured on the server", 500⟩, ?_, rfl⟩
    simp [generate_content_text, h]
  · by_cases hk : apiKeyFalsy genv.api_key = true
    · refine ⟨⟨errObj "API key not configured on the server", 500⟩, ?_, rfl⟩
      simp [generate_content_text, hk]
    · refine ⟨⟨errObj "Request must be JSON", 400⟩, ?_, rfl⟩
      simp [generate_content_text, hk, h]

/-- On a non-dict 2xx generation body, the extraction raises
`AttributeError` (line 241 calls `.get` on it), which the inner `except`
does not catch. -/
theorem extractAudioCore_nonobj (b : Json) (hb : isObjB b = false) :
    extractAudioCore b = .error PyExc.attributeError := by
  cases b with
  | obj kvs => cases hb
  | null => rfl
  | bool x => rfl
  | num n => rfl
  | str s => rfl
  | arr xs => rfl

/-- line 162 with a failing save: the exception reaches the broken
`except Exception` handler and `/process-audio` propagates `TypeError`
(from line 303), with no outbound call and the temp file still removed. -/
theorem process_audio_save_raises (env : AudioEnv)
    (hkey : apiKeyFalsy env.api_key = false)
    (hfile : env.has_audio_file = true)
    (hname : (env.filename == "") = false)
    (hsave : env.save_raises = true) :
    process_audio_file env = (.error PyExc.typeError, [], false) := by
  simp [process_audio_file, hkey, hfile, hname, audioTryBody, hsave, audioExceptChain]

/-- A non-dict 2xx generation body makes `/process-audio` propagate
`TypeError`: the extraction raises `AttributeError`, the inner `except` does
not catch it, and the broken `except Exception` (line 303) crashes (the
temp file is still removed by the `finally`). -/
theorem process_audio_nonobj_body_propagates (env : AudioEnv) (us gs : Nat)
    (ub info mt uri b : Json)
    (hkey : apiKeyFalsy env.api_key = false)
    (hfile : env.has_audio_file = true)
    (hname : (env.filename == "") = false)
    (hsave : env.save_raises = false)
    (hup : env.upload = .resp us ub)
    (hus : us < 400)
    (hparse : uploadResponseParse ub (effectiveMime env.guessed_mime) = .ok info)
    (htruthy : pyTruthy info = true)
    (hhas : pyContains info "uri" = .ok true)
    (huri : pySubscriptStr info "uri" = .ok uri)
    (hmt : pySubscriptStr info "mimeType" = .ok mt)
    (hgen : env.gen = .resp gs b)
    (hgs : gs < 400)
    (hb : isObjB b = false) :
    process_audio_file env =
      (.error PyExc.typeError,
       [Call.uploadCall, Call.generateCall (audioPayload mt uri)], false) := by
  rw [process_audio_reach env us ub info mt uri hkey hfile hname hsave hup hus hparse
      htruthy hhas huri hmt]
  have h400 : ¬ (400 ≤ gs) := Nat.not_le.mpr hgs
  simp [hgen, h400, extractAudioResult, extractAudioCore_nonobj b hb,
    excCaughtByAudioInner, audioExceptChain]

/-- C8 counterexample: a `/generate` request whose JSON body is the array
`[]` (credential set, content type JSON) makes `data.get('prompt')` at line
346 — which runs before the `try` block — raise `AttributeError`, and the
exception leaves the handler unhandled instead of being mapped to a JSON
error response. -/
theorem C8_counterexample :
    generate_content_text ⟨some "k", true, Json.arr [], HttpOutcome.timeout⟩
      = .error PyExc.attributeError := by rfl

/-- C8 (amended): whenever `/process-audio` returns a response it is
`{"error": string}` or a 200 `{"processed_text": string}`, and `/generate`
returns such a well-shaped response (error or 200 `{"generated_text": ..}`)
for every object JSON body and for every pre-check rejection; but not every
failure kind is mapped to a JSON error: a `/generate` request with a
non-object JSON body propagates `AttributeError` raised before the `try`
block (the counterexample), and any exception reaching either generic
`except Exception` handler — e.g. a failing `audio_file.save`, or a
non-dict 2xx generation body — makes `print(..., exc_info=True)` at lines
303/390 itself raise `TypeError`, which propagates out of the handler
unhandled (the `finally` still removes the temporary file). -/
theorem C8_all_failures_mapped :
    (∀ (env : AudioEnv) (r : Resp), (process_audio_file env).1 = .ok r →
      audioRespShape r = true) ∧
    (∀ genv : GenEnv, isObjB genv.body = true →
      ∃ r calls, generate_content_text genv = .ok (r, calls) ∧ genRespShape r = true) ∧
    (∀ genv : GenEnv, apiKeyFalsy genv.api_key = true ∨ genv.is_json = false →
      ∃ r, generate_content_text genv = .ok (r, []) ∧ genRespShape r = true) ∧
    (∀ env : AudioEnv,
      apiKeyFalsy env.api_key = false → env.has_audio_file = true →
      (env.filename == "") = false → env.save_raises = true →
      process_audio_file env = (.error PyExc.typeError, [], false)) ∧
    (∀ (env : AudioEnv) (us gs : Nat) (ub info mt uri b : Json),
      apiKeyFalsy env.api_key = false → env.has_audio_file = true →
      (env.filename == "") = false → env.save_raises = false →
      env.upload = .resp us ub → us < 400 →
      uploadResponseParse ub (effectiveMime env.guessed_mime) = .ok info →
      pyTruthy info = true → pyContains info "uri" = .ok true →
      pySubscriptStr info "uri" = .ok uri → pySubscriptStr info "mimeType" = .ok mt →
      env.gen = .resp gs b → gs < 400 → isObjB b = false →
      process_audio_file env =
        (.error PyExc.typeError,
         [Call.uploadCall, Call.generateCall (audioPayload mt uri)], false)) :=
  ⟨process_audio_file_shape, generate_shape_obj, generate_shape_precheck,
   process_audio_save_raises,
   fun env us gs ub info mt uri b hkey hfile hname hsave hup hus hparse htruthy hhas
       huri hmt hgen hgs hb =>
     process_audio_nonobj_body_propagates env us gs ub info mt uri b hkey hfile hname
       hsave hup hus hparse htruthy hhas huri hmt hgen hgs hb⟩

/-- Witness for the amended C8 at concrete requests: a well-shaped audio
response, a well-shaped generate response, a pre-check rejection, a
save-failure propagation, and a non-dict-body propagation. -/
theorem C8_all_failures_mapped_witness :
    ((process_audio_file ⟨none, true, "a.wav", none, false, .timeout, .timeout⟩).1
        = .ok ⟨errObj "API key not configured on the server", 500⟩ ∧
     audioRespShape ⟨errObj "API key not configured on the server", 500⟩ = true) ∧
    (∃ r calls,
      generate_content_text ⟨some "k", true, Json.obj [("prompt", Json.str "p")], .timeout⟩
        = .ok (r, calls) ∧ genRespShape r = true) ∧
    (∃ r, generate_content_text ⟨none, true, Json.obj [], .timeout⟩
        = .ok (r, []) ∧ genRespShape r = true) ∧
    process_audio_file ⟨some "k", true, "a.wav", none, true, .timeout, .timeout⟩
        = (.error PyExc.typeError, [], false) ∧
    process_audio_file
        ⟨some "k", true, "a.wav", none, false,
         .resp 200 (Json.obj [("name", Json.str "files/f"), ("uri", Json.str "u")]),
         .resp 200 (Json.str "oops")⟩
        = (.error PyExc.typeError,
           [Call.uploadCall,
            Call.generateCall
              (audioPayload (Json.str "application/octet-stream") (Json.str "u"))],
           false) :=
  ⟨⟨rfl, C8_all_failures_mapped.1 ⟨none, true, "a.wav", none, false, .timeout, .timeout⟩
         ⟨errObj "API key not configured on the server", 500⟩ (by rfl)⟩,
   C8_all_failures_mapped.2.1 _ rfl,
   C8_all_failures_mapped.2.2.1 _ (Or.inl rfl),
   C8_all_failures_mapped.2.2.2.1 _ rfl rfl rfl rfl,
   C8_all_failures_mapped.2.2.2.2 _ 200 200
     (Json.obj [("name", Json.str "files/f"), ("uri", Json.str "u")])
     (Json.obj [("name", Json.str "files/f"), ("uri", Json.str "u"),
                ("mimeType", Json.str "application/octet-stream")])
     (Json.str "application/octet-stream") (Json.str "u") (Json.str "oops")
     rfl rfl rfl rfl rfl (by decide) rfl rfl rfl rfl rfl rfl (by decide) rfl⟩
